import Mathlib

/-!
Verification development for the tinykv Raft consensus core
(`src/raft/raft.go`).  The Go code is shallowly embedded: the `Raft`
struct becomes a Lean structure, `Step`/`tick` and their helpers become
pure functions threading the state explicitly, and `rand.Intn` is
modelled as an oracle list of draws stored in the state and consumed by
`initTimer`.  The repository's `log.go` and `util.go` are not part of
the provided sources; `RaftLog.Term`, `RaftLog.LastIndex`, `newLog` and
the ascending sort used for the quorum computation are modelled from the
specification (spec sections 3, 4.5, 6) and are marked as such below.
-/

/-- Role of a node, mirroring `StateType` with constants
`StateFollower`, `StateCandidate`, `StateLeader`. -/
inductive StateType where
  | StateFollower
  | StateCandidate
  | StateLeader
deriving DecidableEq, Repr

/-- Message kinds, mirroring `eraftpb.MessageType` as used in
`raft.go` (`MessageType_MsgHup`, `MessageType_MsgBeat`, ...). -/
inductive MessageType where
  | MsgHup
  | MsgBeat
  | MsgPropose
  | MsgAppend
  | MsgAppendResponse
  | MsgRequestVote
  | MsgRequestVoteResponse
  | MsgSnapshot
  | MsgHeartbeat
  | MsgHeartbeatResponse
  | MsgTransferLeader
  | MsgTimeoutNow
deriving DecidableEq, Repr

/-- A log entry `(index, term, payload)` mirroring `eraftpb.Entry`; the
payload is opaque and modelled as a number. -/
structure Entry where
  index : Nat := 0
  term : Nat := 0
  data : Nat := 0
deriving DecidableEq, Repr

/-- Wire message mirroring `eraftpb.Message`; unset fields in Go struct
literals are zero values, captured here by the defaults.  The Go field
`From` is called `mfrom` because `from` is reserved in Lean. -/
structure Message where
  msgType : MessageType
  mto : Nat := 0
  mfrom : Nat := 0
  term : Nat := 0
  logTerm : Nat := 0
  index : Nat := 0
  entries : List Entry := []
  commit : Nat := 0
  reject : Bool := false
deriving DecidableEq, Repr

/-- The in-memory log, mirroring the `RaftLog` struct used by
`raft.go` (`entries`, `committed`, `stabled`). -/
structure RaftLog where
  entries : List Entry := []
  committed : Nat := 0
  stabled : Nat := 0
deriving DecidableEq, Repr

/-- Modelled from the spec: the log stores entries at 1-based,
gapless, strictly increasing indices (spec section 3), so the last
index is the number of stored entries.  (`log.go` is not among the
provided sources.) -/
def RaftLog.LastIndex (l : RaftLog) : Nat :=
  l.entries.length

/-- Modelled from the spec: term-at-index lookup returning the term of
the entry stored at 1-based position `i`, with "not found" explicitly
representable (spec sections 6 and 7d); index 0 is the conventional
empty prefix with term 0.  (`log.go` is not among the provided
sources.)  All call sites in `raft.go` discard the error
(`logTerm, _ := r.RaftLog.Term(..)`), which is rendered as `.getD 0`. -/
def RaftLog.Term (l : RaftLog) (i : Nat) : Option Nat :=
  if i = 0 then some 0
  else (l.entries.get? (i - 1)).map Entry.term

/-- Per-peer replication progress, mirroring `Progress`. -/
structure Progress where
  Match : Nat := 0
  Next : Nat := 0
deriving DecidableEq, Repr

/-- The node state, mirroring the `Raft` struct.  `rands` is the oracle
of pending `rand.Intn(electionTimeout)` draws consumed by `initTimer`;
a draw `d` is a faithful model of the Go call when `d <
electionTimeout`.  `Prs` and `votes` are Go maps, rendered as an
association list keyed by peer id and as the list of peers recorded
`true`, respectively (the code only ever stores `true` in `votes`). -/
structure Raft where
  id : Nat := 0
  Term : Nat := 0
  Vote : Nat := 0
  raftLog : RaftLog := {}
  Prs : List (Nat × Progress) := []
  State : StateType := .StateFollower
  votes : List Nat := []
  msgs : List Message := []
  Lead : Nat := 0
  heartbeatTimeout : Nat := 0
  electionTimeout : Nat := 0
  currentElectionTimeout : Nat := 0
  heartbeatElapsed : Nat := 0
  electionElapsed : Nat := 0
  rands : List Nat := []
deriving DecidableEq, Repr

/-- Error outcome of `Step`; `ErrProposalDropped` is declared in
`raft.go` so that a dropped proposal can be signalled to the caller. -/
inductive RaftError where
  | proposalDropped
deriving DecidableEq, Repr

/-- Lookup in the `Prs` map (`r.Prs[id]`); the claims only evaluate it
where the key is present, so a missing key defaults. -/
def lookupPrs (prs : List (Nat × Progress)) (i : Nat) : Progress :=
  match prs with
  | [] => {}
  | (k, p) :: rest => if k = i then p else lookupPrs rest i

/-- In-place update `r.Prs[id].Match = v` of the progress map. -/
def updateMatch (prs : List (Nat × Progress)) (i v : Nat) :
    List (Nat × Progress) :=
  prs.map (fun kp => if kp.1 = i then (kp.1, { kp.2 with Match := v }) else kp)

/-- Insert into an ascending list, helper for `sortAsc`. -/
def insertSorted (x : Nat) : List Nat → List Nat
  | [] => [x]
  | y :: ys => if x ≤ y then x :: y :: ys else y :: insertSorted x ys

/-- Modelled from the spec: the quorum computation sorts the collected
`match` values ascending (spec section 4.5, "sort ascending";
`uint64Slice` and `sort.Sort` are not among the provided sources). -/
def sortAsc (l : List Nat) : List Nat :=
  l.foldr insertSorted []

/-- Mirrors `Raft.initTimer` (lines 289-293): reset both elapsed
counters and draw a fresh randomized election timeout
`electionTimeout + rand.Intn(electionTimeout)`; the random draw is the
head of the oracle list. -/
def Raft.initTimer (r : Raft) : Raft :=
  { r with electionElapsed := 0, heartbeatElapsed := 0,
           currentElectionTimeout := r.electionTimeout + r.rands.headD 0,
           rands := r.rands.tail }

/-- Mirrors `Raft.becomeFollower` (lines 296-302). -/
def Raft.becomeFollower (r : Raft) (term lead : Nat) : Raft :=
  Raft.initTimer { r with State := .StateFollower, Term := term, Lead := lead }

/-- Mirrors `Raft.sendAppend` (lines 187-215): entries from slice
position `Prs[dst].Match` onward; nothing is sent when that suffix is
empty; `prevIndex = Match`, `prevTerm = Term(Match)` with the error
discarded. -/
def Raft.sendAppend (r : Raft) (dst : Nat) : Raft :=
  let ents := r.raftLog.entries.drop (lookupPrs r.Prs dst).Match
  if ents = [] then r
  else
    { r with msgs := r.msgs ++ [{
        msgType := .MsgAppend, mto := dst, mfrom := r.id, term := r.Term,
        logTerm := (r.raftLog.Term (lookupPrs r.Prs dst).Match).getD 0,
        index := (lookupPrs r.Prs dst).Match, entries := ents,
        commit := r.raftLog.committed }] }

/-- Mirrors the heartbeat handler, i.e. the `MsgHeartbeat` case of
`Step` (lines 461-464). -/
def Raft.stepHeartbeat (r : Raft) (m : Message) : Raft :=
  if r.Term ≤ m.term then Raft.becomeFollower r m.term m.mfrom else r

/-- Mirrors `Raft.sendHeartbeat` (lines 218-233): a heartbeat to self
is fed straight back into `Step`, whose only effect for an equal-term
heartbeat is the `MsgHeartbeat` case. -/
def Raft.sendHeartbeat (r : Raft) (dst : Nat) : Raft :=
  let m : Message := { msgType := .MsgHeartbeat, mto := dst, mfrom := r.id,
                       term := r.Term, logTerm := 0, index := 0 }
  if dst = r.id then Raft.stepHeartbeat r m
  else { r with msgs := r.msgs ++ [m] }

/-- Mirrors `Raft.sendRequestVote` (lines 235-248). -/
def Raft.sendRequestVote (r : Raft) (dst : Nat) : Raft :=
  { r with msgs := r.msgs ++ [{
      msgType := .MsgRequestVote, mto := dst, mfrom := r.id, term := r.Term,
      logTerm := (r.raftLog.Term r.raftLog.LastIndex).getD 0,
      index := r.raftLog.LastIndex }] }

/-- Mirrors `Raft.sendRequestVoteResponse` (lines 250-260). -/
def Raft.sendRequestVoteResponse (r : Raft) (dst : Nat) (rej : Bool) : Raft :=
  { r with msgs := r.msgs ++ [{
      msgType := .MsgRequestVoteResponse, mto := dst, mfrom := r.id,
      term := r.Term, reject := rej }] }

/-- The entry loop of the `MsgAppend` case (lines 401-413), entry by
entry: a populated slot whose term is smaller than the incoming term is
truncated away (with `stabled` pulled back) before the append; an equal
term skips the entry (`continue`); any other case falls through to the
plain append. -/
def Raft.handleEntries (l : RaftLog) : List Entry → RaftLog
  | [] => l
  | e :: es =>
    let lt := (l.Term e.index).getD 0
    if lt ≠ 0 then
      if lt < e.term then
        Raft.handleEntries
          { l with entries := (l.entries.take (e.index - 1)) ++ [e],
                   stabled := e.index - 1 } es
      else if lt = e.term then Raft.handleEntries l es
      else Raft.handleEntries { l with entries := l.entries ++ [e] } es
    else Raft.handleEntries { l with entries := l.entries ++ [e] } es

/-- The append loop of the `MsgPropose` case (lines 373-377): each
proposed entry is restamped `Index = LastIndex+1`, `Term = r.Term` and
appended. -/
def Raft.appendProposed : Raft → List Entry → Raft
  | r, [] => r
  | r, e :: es =>
    Raft.appendProposed
      { r with raftLog := { r.raftLog with entries := r.raftLog.entries ++
          [{ index := r.raftLog.LastIndex + 1, term := r.Term,
             data := e.data }] } } es

/-- The peer loop of the `MsgPropose` case (lines 378-383): `sendAppend`
to every peer except self. -/
def Raft.sendAppendLoop : Raft → List Nat → Raft
  | r, [] => r
  | r, i :: is =>
    if i = r.id then Raft.sendAppendLoop r is
    else Raft.sendAppendLoop (Raft.sendAppend r i) is

/-- Body of the `MsgPropose` case for a leader (lines 373-386),
including the single-voter immediate commit. -/
def Raft.doPropose (r : Raft) (es : List Entry) : Raft :=
  let r := Raft.appendProposed r es
  let r := Raft.sendAppendLoop r (r.Prs.map Prod.fst)
  if r.Prs.length = 1 then
    { r with raftLog := { r.raftLog with committed := r.raftLog.LastIndex } }
  else r

/-- Mirrors `Raft.becomeLeader` (lines 315-333): set the role, propose
a no-op entry through the normal propose path (the `Step` call reduces
to `doPropose` because the state is already Leader and the message
carries the node's own term), and reset the timer. -/
def Raft.becomeLeader (r : Raft) : Raft :=
  let r := { r with State := .StateLeader }
  let r := Raft.doPropose r
    [{ index := r.raftLog.LastIndex + 1, term := r.Term, data := 0 }]
  Raft.initTimer r

/-- Mirrors `Raft.VotedFrom` (lines 335-340): record the granted vote
and become leader as soon as the tally exceeds half the peer set. -/
def Raft.VotedFrom (r : Raft) (i : Nat) : Raft :=
  let r := { r with votes := if i ∈ r.votes then r.votes else r.votes ++ [i] }
  if r.votes.length > r.Prs.length / 2 then Raft.becomeLeader r else r

/-- Mirrors `Raft.becomeCandidate` (lines 304-312): bump the term,
clear the tally, vote for self (possibly promoting straight to leader
in a tiny cluster), and reset the randomized election timer. -/
def Raft.becomeCandidate (r : Raft) : Raft :=
  let r := { r with State := .StateCandidate, Term := r.Term + 1, votes := [] }
  let r := Raft.VotedFrom r r.id
  Raft.initTimer r

/-- The peer loop of the `MsgHup` case (lines 357-361). -/
def Raft.sendRequestVoteLoop : Raft → List Nat → Raft
  | r, [] => r
  | r, i :: is =>
    if i ≠ r.id then Raft.sendRequestVoteLoop (Raft.sendRequestVote r i) is
    else Raft.sendRequestVoteLoop r is

/-- The peer loop of the `MsgBeat` case (lines 366-368): note that the
loop does not skip self, and `sendHeartbeat` steps a self-heartbeat
directly into the node. -/
def Raft.sendHeartbeatLoop : Raft → List Nat → Raft
  | r, [] => r
  | r, i :: is => Raft.sendHeartbeatLoop (Raft.sendHeartbeat r i) is

/-- The `MsgRequestVote` case of `Step` (lines 438-456): reject when
the local log is more up to date (term first, then index); a leader
steps down before evaluating the vote; `Vote` of `None = 0` grants and
records the candidate, a matching prior vote grants again, anything
else is rejected. -/
def Raft.stepRequestVote (r : Raft) (m : Message) : Raft × Option RaftError :=
  let lt := (r.raftLog.Term r.raftLog.LastIndex).getD 0
  if lt > m.logTerm ∨ (lt = m.logTerm ∧ r.raftLog.LastIndex > m.index) then
    (Raft.sendRequestVoteResponse r m.mfrom true, none)
  else
    let r := if r.State = .StateLeader
      then { r with State := .StateFollower } else r
    if r.Vote = 0 then
      (Raft.sendRequestVoteResponse { r with Vote := m.mfrom } m.mfrom false,
       none)
    else if r.Vote = m.mfrom then
      (Raft.sendRequestVoteResponse r m.mfrom false, none)
    else
      (Raft.sendRequestVoteResponse r m.mfrom true, none)

/-- Mirrors `Raft.Step` (lines 344-467), the message dispatcher.  The
preamble adopts any strictly higher term as a follower with the vote
cleared.  Every branch of the Go function returns `nil`, rendered as
`none`. -/
def Raft.Step (r0 : Raft) (m : Message) : Raft × Option RaftError :=
  let r := if r0.Term < m.term
    then { Raft.becomeFollower r0 m.term m.mfrom with Vote := 0 }
    else r0
  match m.msgType with
  | .MsgHup =>
    if r.State = .StateLeader then (r, none)
    else
      let r := Raft.becomeCandidate r
      (Raft.sendRequestVoteLoop r (r.Prs.map Prod.fst), none)
  | .MsgBeat =>
    if r.State ≠ .StateLeader then (r, none)
    else (Raft.sendHeartbeatLoop r (r.Prs.map Prod.fst), none)
  | .MsgPropose =>
    if r.State ≠ .StateLeader then (r, none)
    else (Raft.doPropose r m.entries, none)
  | .MsgAppend =>
    let r := if r.Term ≤ m.term then Raft.becomeFollower r m.term m.mfrom else r
    if (r.raftLog.Term m.index).getD 0 ≠ m.logTerm then
      ({ r with msgs := r.msgs ++ [{
          msgType := .MsgAppendResponse, mto := m.mfrom, mfrom := m.mto,
          term := r.Term, reject := true }] }, none)
    else
      let r := { r with raftLog := Raft.handleEntries r.raftLog m.entries }
      let r := { r with raftLog := { r.raftLog with committed := m.commit } }
      ({ r with msgs := r.msgs ++ [{
          msgType := .MsgAppendResponse, mto := m.mfrom, mfrom := m.mto,
          term := r.Term, reject := false }] }, none)
  | .MsgAppendResponse =>
    if r.State ≠ .StateLeader then (r, none)
    else
      let doResort : Bool :=
        decide ((lookupPrs r.Prs m.mfrom).Match ≤ r.raftLog.committed ∧
                r.raftLog.committed < m.index)
      let r := { r with Prs := updateMatch r.Prs m.mfrom m.index }
      if doResort then
        let sorted := sortAsc (r.Prs.map (fun kp => kp.2.Match))
        ({ r with raftLog := { r.raftLog with
            committed := sorted.getD ((r.Prs.length + 1) / 2) 0 } }, none)
      else (r, none)
  | .MsgRequestVote => Raft.stepRequestVote r m
  | .MsgRequestVoteResponse =>
    if m.reject = false ∧ m.mfrom ∉ r.votes then
      (Raft.VotedFrom r m.mfrom, none)
    else (r, none)
  | .MsgHeartbeat => (Raft.stepHeartbeat r m, none)
  | _ => (r, none)

/-- Mirrors `Raft.tick` (lines 262-287). -/
def Raft.tick (r : Raft) : Raft :=
  match r.State with
  | .StateLeader =>
    let r := { r with heartbeatElapsed := r.heartbeatElapsed + 1 }
    if r.heartbeatElapsed ≥ r.heartbeatTimeout then
      let r := { r with heartbeatElapsed := 0 }
      (Raft.Step r { msgType := .MsgBeat, mto := r.id, mfrom := r.id,
                     term := r.Term }).1
    else r
  | _ =>
    let r := { r with electionElapsed := r.electionElapsed + 1 }
    if r.electionElapsed ≥ r.currentElectionTimeout then
      (Raft.Step r { msgType := .MsgHup, mto := r.id, mfrom := r.id }).1
    else r

/-- Construction parameters, mirroring `Config`. -/
structure Config where
  ID : Nat
  peers : List Nat
  ElectionTick : Nat
  HeartbeatTick : Nat

/-- Mirrors `newRaft` (lines 163-185) for a fresh bootstrap: term 0,
follower, one empty `Progress` per peer, an empty log (`newLog` over
empty storage is modelled from the spec), and an initial randomized
timer draw. -/
def newRaft (c : Config) (rands : List Nat) : Raft :=
  Raft.initTimer {
    id := c.ID, Term := 0, Vote := 0,
    raftLog := { entries := [], committed := 0, stabled := 0 },
    Prs := c.peers.map (fun i => (i, {})),
    State := .StateFollower, votes := [], msgs := [], Lead := 0,
    heartbeatTimeout := c.HeartbeatTick, electionTimeout := c.ElectionTick,
    currentElectionTimeout := 0, heartbeatElapsed := 0, electionElapsed := 0,
    rands := rands }

/-- The reference initial node used by the concrete scenarios: node 1
of a 3-node cluster. -/
def raft0 : Raft :=
  newRaft { ID := 1, peers := [1, 2, 3], ElectionTick := 10,
            HeartbeatTick := 3 } []

/-- A drawn randomized offset is below the bound when every pending
draw is and the bound is positive (the empty-oracle default 0 included). -/
theorem headD_lt_of_forall (l : List Nat) (b : Nat) (hb : 0 < b)
    (h : ∀ d ∈ l, d < b) : l.headD 0 < b := by
  cases l with
  | nil => exact hb
  | cons a t => exact h a (List.mem_cons_self a t)

/-- Every element of the tail is an element of the list. -/
theorem mem_of_mem_tail_nat (l : List Nat) (d : Nat) (h : d ∈ l.tail) :
    d ∈ l := by
  cases l with
  | nil => exact absurd h (List.not_mem_nil d)
  | cons a t => exact List.mem_cons_of_mem a h

/-- The fields `sendAppend` leaves untouched. -/
theorem Raft.sendAppend_fields (r : Raft) (i : Nat) :
    (Raft.sendAppend r i).Term = r.Term ∧
    (Raft.sendAppend r i).votes = r.votes ∧
    (Raft.sendAppend r i).electionTimeout = r.electionTimeout ∧
    (Raft.sendAppend r i).rands = r.rands ∧
    (Raft.sendAppend r i).id = r.id ∧
    (Raft.sendAppend r i).electionElapsed = r.electionElapsed := by
  unfold Raft.sendAppend
  dsimp only
  split <;> exact ⟨rfl, rfl, rfl, rfl, rfl, rfl⟩

/-- The fields the propose-path peer loop leaves untouched. -/
theorem Raft.sendAppendLoop_fields (l : List Nat) (r : Raft) :
    (Raft.sendAppendLoop r l).Term = r.Term ∧
    (Raft.sendAppendLoop r l).votes = r.votes ∧
    (Raft.sendAppendLoop r l).electionTimeout = r.electionTimeout ∧
    (Raft.sendAppendLoop r l).rands = r.rands ∧
    (Raft.sendAppendLoop r l).id = r.id ∧
    (Raft.sendAppendLoop r l).electionElapsed = r.electionElapsed := by
  induction l generalizing r with
  | nil => exact ⟨rfl, rfl, rfl, rfl, rfl, rfl⟩
  | cons i is ih =>
    unfold Raft.sendAppendLoop
    split
    · exact ih r
    · obtain ⟨h1, h2, h3, h4, h5, h6⟩ := Raft.sendAppend_fields r i
      obtain ⟨g1, g2, g3, g4, g5, g6⟩ := ih (Raft.sendAppend r i)
      exact ⟨g1.trans h1, g2.trans h2, g3.trans h3, g4.trans h4,
             g5.trans h5, g6.trans h6⟩

/-- The fields the propose-path append loop leaves untouched. -/
theorem Raft.appendProposed_fields (es : List Entry) (r : Raft) :
    (Raft.appendProposed r es).Term = r.Term ∧
    (Raft.appendProposed r es).votes = r.votes ∧
    (Raft.appendProposed r es).electionTimeout = r.electionTimeout ∧
    (Raft.appendProposed r es).rands = r.rands ∧
    (Raft.appendProposed r es).id = r.id ∧
    (Raft.appendProposed r es).electionElapsed = r.electionElapsed := by
  induction es generalizing r with
  | nil => exact ⟨rfl, rfl, rfl, rfl, rfl, rfl⟩
  | cons e es ih =>
    unfold Raft.appendProposed
    exact ih _

/-- The fields `doPropose` leaves untouched. -/
theorem Raft.doPropose_fields (r : Raft) (es : List Entry) :
    (Raft.doPropose r es).Term = r.Term ∧
    (Raft.doPropose r es).votes = r.votes ∧
    (Raft.doPropose r es).electionTimeout = r.electionTimeout ∧
    (Raft.doPropose r es).rands = r.rands ∧
    (Raft.doPropose r es).id = r.id ∧
    (Raft.doPropose r es).electionElapsed = r.electionElapsed := by
  unfold Raft.doPropose
  dsimp only
  obtain ⟨h1, h2, h3, h4, h5, h6⟩ := Raft.appendProposed_fields es r
  obtain ⟨g1, g2, g3, g4, g5, g6⟩ :=
    Raft.sendAppendLoop_fields ((Raft.appendProposed r es).Prs.map Prod.fst)
      (Raft.appendProposed r es)
  split
  · exact ⟨g1.trans h1, g2.trans h2, g3.trans h3, g4.trans h4,
           g5.trans h5, g6.trans h6⟩
  · exact ⟨g1.trans h1, g2.trans h2, g3.trans h3, g4.trans h4,
           g5.trans h5, g6.trans h6⟩

/-- What `becomeLeader` does to the fields tracked by the candidate
transition: the term and tally are preserved and one oracle draw is
consumed by its trailing `initTimer`. -/
theorem Raft.becomeLeader_fields (r : Raft) :
    (Raft.becomeLeader r).Term = r.Term ∧
    (Raft.becomeLeader r).votes = r.votes ∧
    (Raft.becomeLeader r).electionTimeout = r.electionTimeout ∧
    (Raft.becomeLeader r).rands = r.rands.tail := by
  unfold Raft.becomeLeader Raft.initTimer
  dsimp only
  obtain ⟨h1, h2, h3, h4, h5, h6⟩ :=
    Raft.doPropose_fields { r with State := .StateLeader }
      [{ index := r.raftLog.LastIndex + 1, term := r.Term, data := 0 }]
  exact ⟨h1, h2, h3, by rw [h4]⟩

/-- What `VotedFrom` does to the fields tracked by the candidate
transition: the tally gains the voter, the term is kept, and the oracle
is either untouched or advanced by the promotion to leader. -/
theorem Raft.VotedFrom_fields (r : Raft) (i : Nat) :
    (Raft.VotedFrom r i).Term = r.Term ∧
    (Raft.VotedFrom r i).votes =
      (if i ∈ r.votes then r.votes else r.votes ++ [i]) ∧
    (Raft.VotedFrom r i).electionTimeout = r.electionTimeout ∧
    ((Raft.VotedFrom r i).rands = r.rands ∨
     (Raft.VotedFrom r i).rands = r.rands.tail) := by
  unfold Raft.VotedFrom
  dsimp only
  set vs := if i ∈ r.votes then r.votes else r.votes ++ [i] with hvs
  split
  · obtain ⟨h1, h2, h3, h4⟩ := Raft.becomeLeader_fields { r with votes := vs }
    exact ⟨h1, h2, h3, Or.inr h4⟩
  · exact ⟨rfl, rfl, rfl, Or.inl rfl⟩

/-- Leader of claims C1: term 2, but both log entries were appended in
term 1; nobody has acknowledged anything yet. -/
def c1r : Raft := { raft0 with
  State := .StateLeader, Term := 2, Lead := 1,
  raftLog := { entries := [⟨1, 1, 0⟩, ⟨2, 1, 0⟩], committed := 0,
               stabled := 0 } }

/-- Successful `AppendResponse` from peer 2 acknowledging index 2. -/
def c1m : Message := { msgType := .MsgAppendResponse, mto := 1, mfrom := 2,
                       term := 2, index := 2 }

/-- C1: a leader processing an `AppendResponse` advances `committed` to
the quorum value with no check that the entry there carries the
leader's current term — here it commits index 2 whose entry has term 1
while the leader's term is 2, by counting replicas alone.  This refutes
the claimed current-term guard (the code has none; spec section 9
flags exactly this gap). -/
theorem c1_commit_advances_past_old_term_entry :
    (Raft.Step c1r c1m).1.raftLog.committed = 2 ∧
    ((Raft.Step c1r c1m).1.raftLog.Term 2).getD 0 = 1 ∧
    (Raft.Step c1r c1m).1.Term = 2 ∧
    (Raft.Step c1r c1m).1.State = StateType.StateLeader := by
  decide

/-- Follower of claim C2 with a single entry of term 1. -/
def c2r : Raft := { raft0 with
  Term := 1,
  raftLog := { entries := [⟨1, 1, 0⟩], committed := 0, stabled := 0 } }

/-- Accepted `AppendEntries` carrying one entry (index 2) and an
advertised leader commit of 100. -/
def c2m : Message := { msgType := .MsgAppend, mto := 1, mfrom := 2,
                       term := 1, logTerm := 1, index := 1,
                       entries := [⟨2, 1, 0⟩], commit := 100 }

/-- C2: a node accepting an `AppendEntries` copies `leaderCommit`
verbatim into `committed` instead of `min(leaderCommit, last accepted
index)` — here `committed` becomes 100 although the local log only
reaches index 2, so `committed` is set far past the entries actually
present (spec section 9 flags exactly this missing clamp). -/
theorem c2_follower_commit_not_clamped :
    (Raft.Step c2r c2m).1.raftLog.committed = 100 ∧
    (Raft.Step c2r c2m).1.raftLog.LastIndex = 2 := by
  decide

/-- First message of the C3 trace: an accepted empty append with
advertised commit 5, delivered to the freshly constructed node. -/
def c3m1 : Message := { msgType := .MsgAppend, mto := 1, mfrom := 2,
                        term := 1, logTerm := 0, index := 0, commit := 5 }

/-- Second message of the C3 trace: a stale duplicate of the same
append advertising the older commit 3. -/
def c3m2 : Message := { msgType := .MsgAppend, mto := 1, mfrom := 2,
                        term := 1, logTerm := 0, index := 0, commit := 3 }

/-- C3: two `step` operations from the freshly constructed node refute
both halves of the claimed invariant: after the first accepted append
`committed = 5` while the log's last index is still 0 (`committed`
exceeds the last index), and the second, stale append drags `committed`
back down from 5 to 3 (`committed` decreases). -/
theorem c3_committed_regresses_and_overshoots :
    (Raft.Step raft0 c3m1).1.raftLog.committed = 5 ∧
    (Raft.Step raft0 c3m1).1.raftLog.LastIndex = 0 ∧
    (Raft.Step (Raft.Step raft0 c3m1).1 c3m2).1.raftLog.committed = 3 := by
  decide

/-- Leader of claim C4: a 5-node cluster, all four log entries carry
the current term 1; acknowledged match values are about to become
`{0, 2, 2, 4, 4}`. -/
def c4r : Raft := { raft0 with
  State := .StateLeader, Term := 1, Lead := 1,
  raftLog := { entries := [⟨1, 1, 0⟩, ⟨2, 1, 0⟩, ⟨3, 1, 0⟩, ⟨4, 1, 0⟩],
               committed := 0, stabled := 0 },
  Prs := [(1, {}), (2, { Match := 2 }), (3, { Match := 2 }), (4, {}),
          (5, { Match := 4 })] }

/-- Successful `AppendResponse` from peer 4 acknowledging index 4,
completing the match multiset `{0, 2, 2, 4, 4}`. -/
def c4m : Message := { msgType := .MsgAppendResponse, mto := 1, mfrom := 4,
                       term := 1, index := 4 }

/-- C4: with match values `{0, 2, 2, 4, 4}` over 5 voters the claimed
(and Raft-correct) commit index is 2 — the largest value replicated on
at least 3 nodes — but the code indexes the ascending sort at position
`(n+1)/2 = 3` and commits 4, an index replicated on only 2 of 5 nodes.
The match update itself is also shown, and the sorted list is exactly
the claimed multiset. -/
theorem c4_quorum_commit_value_wrong :
    sortAsc ((Raft.Step c4r c4m).1.Prs.map (fun kp => kp.2.Match)) =
      [0, 2, 2, 4, 4] ∧
    (Raft.Step c4r c4m).1.raftLog.committed = 4 ∧
    ¬ (Raft.Step c4r c4m).1.raftLog.committed = 2 := by
  decide

/-- Leader of claim C5: peer 2 is already known to have replicated up
to index 5 and the leader has committed through 5. -/
def c5r : Raft := { raft0 with
  State := .StateLeader, Term := 2, Lead := 1,
  raftLog := { entries := [⟨1, 2, 0⟩, ⟨2, 2, 0⟩, ⟨3, 2, 0⟩, ⟨4, 2, 0⟩,
                           ⟨5, 2, 0⟩], committed := 5, stabled := 0 },
  Prs := [(1, { Match := 3 }), (2, { Match := 5 }), (3, {})] }

/-- A rejection `AppendResponse` from peer 2; as in
`sendAppendResponse`-less rejection paths of the code, its `Index`
field is the zero value. -/
def c5m : Message := { msgType := .MsgAppendResponse, mto := 1, mfrom := 2,
                       term := 2, reject := true, index := 0 }

/-- C5: the leader ignores the `Reject` flag of an `AppendResponse` and
unconditionally overwrites the peer's `match` with the message index —
a rejection carrying index 0 drags `match(2)` from 5 back to 0, no
retry point is decremented (`Next` is never touched by the code) and
nothing is resent (the outbound queue stays empty), while the node
remains leader.  This refutes both the claimed rejection handling and
the forward-only movement of `match`. -/
theorem c5_match_moved_backward_no_resend :
    (lookupPrs c5r.Prs 2).Match = 5 ∧
    (lookupPrs (Raft.Step c5r c5m).1.Prs 2).Match = 0 ∧
    (Raft.Step c5r c5m).1.msgs = [] ∧
    (Raft.Step c5r c5m).1.State = StateType.StateLeader := by
  decide

/-- Follower of claim C7 at term 3 whose log already holds an entry of
term 3 at index 2. -/
def c7r : Raft := { raft0 with
  Term := 3,
  raftLog := { entries := [⟨1, 1, 0⟩, ⟨2, 3, 0⟩], committed := 0,
               stabled := 0 } }

/-- Accepted `AppendEntries` (prev = index 1 term 1 matches) carrying a
conflicting entry: index 2 with term 2, different from the local term 3
at that index. -/
def c7m : Message := { msgType := .MsgAppend, mto := 1, mfrom := 2,
                       term := 4, logTerm := 1, index := 1,
                       entries := [⟨2, 2, 0⟩], commit := 0 }

/-- C7: the entry loop only truncates when the local term at the
incoming index is **smaller** than the incoming term; when the local
term is larger (local term 3 vs incoming term 2 at index 2) the
conflicting local entry survives and the incoming entry is appended at
the end, leaving a log with two entries claiming index 2 — instead of
the claimed truncate-then-append, which would yield
`[⟨1,1⟩, ⟨2,2⟩]`. -/
theorem c7_conflicting_entry_not_truncated :
    (Raft.Step c7r c7m).1.raftLog.entries =
      [⟨1, 1, 0⟩, ⟨2, 3, 0⟩, ⟨2, 2, 0⟩] ∧
    ¬ (Raft.Step c7r c7m).1.raftLog.entries = [⟨1, 1, 0⟩, ⟨2, 2, 0⟩] := by
  decide

/-- Non-leader proposal of claim C9: the fresh follower receives a
client proposal carrying one payload. -/
def c9m : Message := { msgType := .MsgPropose, mto := 1, mfrom := 1,
                       entries := [⟨0, 0, 7⟩] }

/-- C9: a non-leader receiving `Propose` drops it and leaves the whole
state — in particular the log — unchanged, but `Step` returns `none`
rather than the declared `ErrProposalDropped`, so the drop is never
signalled to the caller (the code returns `nil` although
`ErrProposalDropped` is declared exactly for this case). -/
theorem c9_propose_dropped_without_signal :
    Raft.Step raft0 c9m = (raft0, none) ∧
    (Raft.Step raft0 c9m).2 ≠ some RaftError.proposalDropped := by
  decide

/-- Leader of claim C10 in a 3-node cluster at term 2. -/
def c10r : Raft := { raft0 with
  State := .StateLeader, Term := 2, Lead := 1 }

/-- The `Beat` the leader injects into itself on heartbeat timeout. -/
def c10m : Message := { msgType := .MsgBeat, mto := 1, mfrom := 1,
                        term := 2 }

/-- C10: processing `Beat` does queue a heartbeat carrying the
leader's term for each other peer, but because the peer loop does not
skip self and `sendHeartbeat` steps a self-addressed heartbeat straight
back into the node — whose handler turns any `term ≥ local term`
heartbeat into `becomeFollower` — the leader demotes itself to Follower
(of itself) with the term unchanged.  This refutes both "remains
Leader" and "leaves a role for Follower only on a strictly greater
term". -/
theorem c10_beat_demotes_leader :
    (Raft.Step c10r c10m).1.State = StateType.StateFollower ∧
    (Raft.Step c10r c10m).1.Term = 2 ∧
    (Raft.Step c10r c10m).1.Lead = 1 ∧
    (Raft.Step c10r c10m).1.msgs =
      [{ msgType := .MsgHeartbeat, mto := 2, mfrom := 1, term := 2 },
       { msgType := .MsgHeartbeat, mto := 3, mfrom := 1, term := 2 }] := by
  decide

/-- Unfolding of `becomeCandidate` into its three stages. -/
theorem Raft.becomeCandidate_eq (r : Raft) :
    Raft.becomeCandidate r = Raft.initTimer (Raft.VotedFrom
      { r with State := .StateCandidate, Term := r.Term + 1, votes := [] }
      r.id) := rfl

/-- C8: whenever a Follower or Candidate enters the Candidate state,
the transition increments the term by one, clears the vote tally down
to the single self-vote, and resets the election deadline to a
randomized value in `[electionBase, 2*electionBase)` ticks.  The
hypotheses state that the oracle draws are genuine `rand.Intn`
results, i.e. below the (positive) election base. -/
theorem c8_become_candidate_transition (r : Raft)
    (h0 : r.State ≠ StateType.StateLeader)
    (h1 : 0 < r.electionTimeout)
    (h2 : ∀ d ∈ r.rands, d < r.electionTimeout) :
    (Raft.becomeCandidate r).Term = r.Term + 1 ∧
    (Raft.becomeCandidate r).votes = [r.id] ∧
    (Raft.becomeCandidate r).electionElapsed = 0 ∧
    r.electionTimeout ≤ (Raft.becomeCandidate r).currentElectionTimeout ∧
    (Raft.becomeCandidate r).currentElectionTimeout <
      2 * r.electionTimeout := by
  obtain ⟨v1, v2, v3, v4⟩ := Raft.VotedFrom_fields
    { r with State := .StateCandidate, Term := r.Term + 1, votes := [] } r.id
  have hd : (Raft.VotedFrom
      { r with State := .StateCandidate, Term := r.Term + 1, votes := [] }
      r.id).rands.headD 0 < r.electionTimeout := by
    rcases v4 with h | h
    · rw [h]
      exact headD_lt_of_forall r.rands r.electionTimeout h1 h2
    · rw [h]
      exact headD_lt_of_forall r.rands.tail r.electionTimeout h1
        (fun d hd2 => h2 d (mem_of_mem_tail_nat r.rands d hd2))
  rw [Raft.becomeCandidate_eq]
  dsimp only [Raft.initTimer]
  rw [v1, v2, v3]
  dsimp only
  refine ⟨rfl, by simp, rfl, ?_, ?_⟩
  · omega
  · omega

/-- A follower at term 4 with one pending oracle draw, used to witness
claim C8. -/
def c8r : Raft := { raft0 with Term := 4, rands := [2] }

/-- Witness for C8: the candidate transition at the concrete follower
`c8r` (election base 10, draw 2) lands on term 5, tally `[1]`, elapsed
0 and deadline 12 within `[10, 20)`. -/
theorem c8_become_candidate_transition_witness :
    c8r.State ≠ StateType.StateLeader ∧ 0 < c8r.electionTimeout ∧
    (∀ d ∈ c8r.rands, d < c8r.electionTimeout) ∧
    ((Raft.becomeCandidate c8r).Term = c8r.Term + 1 ∧
     (Raft.becomeCandidate c8r).votes = [c8r.id] ∧
     (Raft.becomeCandidate c8r).electionElapsed = 0 ∧
     c8r.electionTimeout ≤ (Raft.becomeCandidate c8r).currentElectionTimeout ∧
     (Raft.becomeCandidate c8r).currentElectionTimeout <
       2 * c8r.electionTimeout) :=
  ⟨by decide, by decide, by decide,
   c8_become_candidate_transition c8r (by decide) (by decide) (by decide)⟩

/-- Strict lexicographic order on (term, index) pairs, the spec's
log-up-to-dateness comparison. -/
def lexLt (a b : Nat × Nat) : Prop :=
  a.1 < b.1 ∨ (a.1 = b.1 ∧ a.2 < b.2)

instance (a b : Nat × Nat) : Decidable (lexLt a b) := by
  unfold lexLt
  infer_instance

/-- The receiver's (lastLogTerm, lastLogIndex) pair, as computed at the
top of the `MsgRequestVote` case. -/
def Raft.lastLogPair (r : Raft) : Nat × Nat :=
  ((r.raftLog.Term r.raftLog.LastIndex).getD 0, r.raftLog.LastIndex)

/-- The vote response built by `sendRequestVoteResponse` from state
`s`. -/
def Raft.voteResp (s : Raft) (m : Message) (rej : Bool) : Message :=
  { msgType := .MsgRequestVoteResponse, mto := m.mfrom, mfrom := s.id,
    term := s.Term, reject := rej }

/-- Characterization of the `MsgRequestVote` case over an arbitrary
state: a less up-to-date requester is rejected with the vote kept; an
up-to-date requester is granted exactly when the vote is unset or
already his, recording the candidate; any other standing vote rejects;
and the case never touches the election timer. -/
theorem Raft.stepRequestVote_spec (s : Raft) (m : Message) :
    (lexLt (m.logTerm, m.index) (Raft.lastLogPair s) →
       (Raft.stepRequestVote s m).1.msgs = s.msgs ++ [Raft.voteResp s m true] ∧
       (Raft.stepRequestVote s m).1.Vote = s.Vote) ∧
    (¬ lexLt (m.logTerm, m.index) (Raft.lastLogPair s) →
       (s.Vote = 0 ∨ s.Vote = m.mfrom) →
       (Raft.stepRequestVote s m).1.Vote = m.mfrom ∧
       (Raft.stepRequestVote s m).1.msgs =
         s.msgs ++ [Raft.voteResp s m false]) ∧
    (¬ lexLt (m.logTerm, m.index) (Raft.lastLogPair s) →
       s.Vote ≠ 0 → s.Vote ≠ m.mfrom →
       (Raft.stepRequestVote s m).1.msgs = s.msgs ++ [Raft.voteResp s m true] ∧
       (Raft.stepRequestVote s m).1.Vote = s.Vote) ∧
    ((Raft.stepRequestVote s m).1.electionElapsed = s.electionElapsed ∧
     (Raft.stepRequestVote s m).1.currentElectionTimeout =
       s.currentElectionTimeout) := by
  unfold Raft.stepRequestVote Raft.sendRequestVoteResponse Raft.voteResp
  dsimp only
  split_ifs with hrej hst hv0 hvf hv0 hvf
  · refine ⟨fun hl => ⟨rfl, rfl⟩,
            fun hl hv => absurd ?_ hl,
            fun hl h1 h2 => absurd ?_ hl, rfl, rfl⟩
    · dsimp only [lexLt, Raft.lastLogPair]
      omega
    · dsimp only [lexLt, Raft.lastLogPair]
      omega
  · exact ⟨fun hl => absurd hl (by dsimp only [lexLt, Raft.lastLogPair]; omega),
           fun hl hv => ⟨rfl, rfl⟩,
           fun hl h1 h2 => absurd hv0 h1, rfl, rfl⟩
  · exact ⟨fun hl => absurd hl (by dsimp only [lexLt, Raft.lastLogPair]; omega),
           fun hl hv => ⟨hvf, rfl⟩,
           fun hl h1 h2 => absurd hvf h2, rfl, rfl⟩
  · refine ⟨fun hl => absurd hl (by dsimp only [lexLt, Raft.lastLogPair]; omega),
            fun hl hv => ?_,
            fun hl h1 h2 => ⟨rfl, rfl⟩, rfl, rfl⟩
    rcases hv with hv | hv
    · exact absurd hv hv0
    · exact absurd hv hvf
  · exact ⟨fun hl => absurd hl (by dsimp only [lexLt, Raft.lastLogPair]; omega),
           fun hl hv => ⟨rfl, rfl⟩,
           fun hl h1 h2 => absurd hv0 h1, rfl, rfl⟩
  · exact ⟨fun hl => absurd hl (by dsimp only [lexLt, Raft.lastLogPair]; omega),
           fun hl hv => ⟨hvf, rfl⟩,
           fun hl h1 h2 => absurd hvf h2, rfl, rfl⟩
  · refine ⟨fun hl => absurd hl (by dsimp only [lexLt, Raft.lastLogPair]; omega),
            fun hl hv => ?_,
            fun hl h1 h2 => ⟨rfl, rfl⟩, rfl, rfl⟩
    rcases hv with hv | hv
    · exact absurd hv hv0
    · exact absurd hv hvf

/-- The vote the node effectively holds when the RequestVote case
runs: the preamble clears it when the message carries a higher term. -/
def Raft.effVote (r : Raft) (m : Message) : Nat :=
  if r.Term < m.term then 0 else r.Vote

/-- The RequestVoteResponse as seen from the pre-step state: its term
is the maximum of the local and message terms. -/
def rvResp (r : Raft) (m : Message) (rej : Bool) : Message :=
  { msgType := .MsgRequestVoteResponse, mto := m.mfrom, mfrom := r.id,
    term := max r.Term m.term, reject := rej }

/-- C6 (amended): on `RequestVote`, a requester whose (lastLogTerm,
lastLogIndex) is lexicographically below the receiver's is rejected; an
up-to-date requester is granted exactly when the effective vote (the
stored vote, cleared by a higher message term) is unset or already the
candidate, and granting sets the receiver's vote to the candidate's id;
a standing vote for a different candidate in the same term rejects.
Amendment forced by the counterexample: the grant itself does **not**
reset the election deadline — for a message whose term does not exceed
the receiver's, the elapsed tick count and the randomized deadline are
left exactly as they were (the deadline is reset only by the follower
transition that a strictly higher message term triggers). -/
theorem c6_vote_rules_amended (r : Raft) (m : Message)
    (h : m.msgType = MessageType.MsgRequestVote) :
    (lexLt (m.logTerm, m.index) (Raft.lastLogPair r) →
       (Raft.Step r m).1.msgs = r.msgs ++ [rvResp r m true] ∧
       (Raft.Step r m).1.Vote = Raft.effVote r m) ∧
    (¬ lexLt (m.logTerm, m.index) (Raft.lastLogPair r) →
       (Raft.effVote r m = 0 ∨ Raft.effVote r m = m.mfrom) →
       (Raft.Step r m).1.Vote = m.mfrom ∧
       (Raft.Step r m).1.msgs = r.msgs ++ [rvResp r m false]) ∧
    (¬ lexLt (m.logTerm, m.index) (Raft.lastLogPair r) →
       Raft.effVote r m ≠ 0 → Raft.effVote r m ≠ m.mfrom →
       (Raft.Step r m).1.msgs = r.msgs ++ [rvResp r m true] ∧
       (Raft.Step r m).1.Vote = Raft.effVote r m) ∧
    (m.term ≤ r.Term →
       (Raft.Step r m).1.electionElapsed = r.electionElapsed ∧
       (Raft.Step r m).1.currentElectionTimeout =
         r.currentElectionTimeout) := by
  rcases m with ⟨mt, to2, fr, tm, lgt, idx2, es, cm, rj⟩
  dsimp only at h
  subst h
  have hstep : Raft.Step r ⟨.MsgRequestVote, to2, fr, tm, lgt, idx2, es, cm, rj⟩ =
      Raft.stepRequestVote
        (if r.Term < tm
         then { Raft.becomeFollower r tm fr with Vote := 0 } else r)
        ⟨.MsgRequestVote, to2, fr, tm, lgt, idx2, es, cm, rj⟩ := rfl
  rw [hstep]
  dsimp only
  by_cases hpre : r.Term < tm
  · rw [if_pos hpre]
    obtain ⟨A, B, C, D⟩ := Raft.stepRequestVote_spec
      { Raft.becomeFollower r tm fr with Vote := 0 }
      ⟨.MsgRequestVote, to2, fr, tm, lgt, idx2, es, cm, rj⟩
    have hresp : ∀ b, Raft.voteResp
        { Raft.becomeFollower r tm fr with Vote := 0 }
        ⟨.MsgRequestVote, to2, fr, tm, lgt, idx2, es, cm, rj⟩ b =
        rvResp r ⟨.MsgRequestVote, to2, fr, tm, lgt, idx2, es, cm, rj⟩ b := by
      intro b
      dsimp only [Raft.voteResp, rvResp, Raft.becomeFollower, Raft.initTimer]
      rw [Nat.max_eq_right (Nat.le_of_lt hpre)]
    have heff : Raft.effVote r
        ⟨.MsgRequestVote, to2, fr, tm, lgt, idx2, es, cm, rj⟩ = 0 := by
      dsimp only [Raft.effVote]
      rw [if_pos hpre]
    refine ⟨fun hl => ?_, fun hl hv => ?_, fun hl h1 h2 => ?_,
            fun ht => absurd hpre (Nat.not_lt.mpr ht)⟩
    · obtain ⟨a1, a2⟩ := A hl
      rw [heff]
      refine ⟨?_, a2⟩
      rw [a1, hresp true]
      rfl
    · obtain ⟨b1, b2⟩ := B hl (Or.inl rfl)
      refine ⟨b1, ?_⟩
      rw [b2, hresp false]
      rfl
    · exact absurd heff h1
  · rw [if_neg hpre]
    obtain ⟨A, B, C, D⟩ := Raft.stepRequestVote_spec r
      ⟨.MsgRequestVote, to2, fr, tm, lgt, idx2, es, cm, rj⟩
    have hresp : ∀ b, Raft.voteResp r
        ⟨.MsgRequestVote, to2, fr, tm, lgt, idx2, es, cm, rj⟩ b =
        rvResp r ⟨.MsgRequestVote, to2, fr, tm, lgt, idx2, es, cm, rj⟩ b := by
      intro b
      dsimp only [Raft.voteResp, rvResp]
      rw [Nat.max_eq_left (Nat.le_of_not_lt hpre)]
    have heff : Raft.effVote r
        ⟨.MsgRequestVote, to2, fr, tm, lgt, idx2, es, cm, rj⟩ = r.Vote := by
      dsimp only [Raft.effVote]
      rw [if_neg hpre]
    rw [heff]
    refine ⟨fun hl => ?_, fun hl hv => ?_, fun hl h1 h2 => ?_, fun ht => D⟩
    · obtain ⟨a1, a2⟩ := A hl
      rw [a1, hresp true]
      exact ⟨rfl, a2⟩
    · obtain ⟨b1, b2⟩ := B hl hv
      rw [b2, hresp false]
      exact ⟨b1, rfl⟩
    · obtain ⟨c1, c2⟩ := C hl h1 h2
      rw [c1, hresp true]
      exact ⟨rfl, c2⟩

/-- Follower of claim C6 at term 5, three ticks into its election
window, with no vote cast. -/
def c6r : Raft := { raft0 with Term := 5, electionElapsed := 3 }

/-- Same-term `RequestVote` from candidate 2 with an up-to-date log. -/
def c6m : Message := { msgType := .MsgRequestVote, mto := 1, mfrom := 2,
                       term := 5, logTerm := 1, index := 4 }

/-- Counterexample to C6 as stated: the vote is granted (vote set to
candidate 2, grant response emitted) but the election deadline is not
reset — `electionElapsed` stays at 3 instead of restarting, and the
randomized deadline is untouched. -/
theorem c6_grant_without_deadline_reset :
    (Raft.Step c6r c6m).1.Vote = 2 ∧
    (Raft.Step c6r c6m).1.msgs =
      [{ msgType := .MsgRequestVoteResponse, mto := 2, mfrom := 1,
         term := 5, reject := false }] ∧
    c6r.electionElapsed = 3 ∧
    (Raft.Step c6r c6m).1.electionElapsed = 3 ∧
    (Raft.Step c6r c6m).1.currentElectionTimeout =
      c6r.currentElectionTimeout := by
  decide

/-- Witness for C6 (amended), at the concrete grant scenario `c6r`,
`c6m`: the requester is not behind, the vote is unset, and the grant
records candidate 2 and emits the grant response. -/
theorem c6_vote_rules_amended_witness :
    ¬ lexLt (c6m.logTerm, c6m.index) (Raft.lastLogPair c6r) ∧
    ((Raft.Step c6r c6m).1.Vote = c6m.mfrom ∧
     (Raft.Step c6r c6m).1.msgs = c6r.msgs ++ [rvResp c6r c6m false]) :=
  ⟨by decide,
   (c6_vote_rules_amended c6r c6m rfl).2.1 (by decide) (Or.inl (by decide))⟩
